import Mathlib

/-!
Verification development for the AlphaTrader frontend realtime client
(`frontend/app.js`): the price cache mutated by push messages
(`ws.onmessage`, `Object.assign(priceCache, msg.prices)`), the portfolio
projection (`refreshPositionPrices`), the authorized-fetch wrapper
(`authFetch` / `handleLogout`), the WebSocket lifecycle
(`connectWebSocket` and its `onopen` / `onclose` / `onerror` handlers),
and the 60-second reconciliation interval registered on `DOMContentLoaded`.

JavaScript numbers are modelled as exact rationals extended with `NaN`
and the two infinities; exact rational arithmetic stands in for IEEE-754
double arithmetic (no rounding, no negative zero), which is adequate for
every property proved here.
-/

namespace AlphaTrader

/-- A JavaScript number: a finite value (exact rational), `NaN`, or `±Infinity`. -/
inductive JsNum where
  | fin (q : ℚ)
  | nan
  | posInf
  | negInf
deriving DecidableEq, Repr

/-- JavaScript subtraction `a - b` on numbers. -/
def JsNum.sub : JsNum → JsNum → JsNum
  | .nan, _ => .nan
  | _, .nan => .nan
  | .posInf, .posInf => .nan
  | .posInf, _ => .posInf
  | .negInf, .negInf => .nan
  | .negInf, _ => .negInf
  | .fin _, .posInf => .negInf
  | .fin _, .negInf => .posInf
  | .fin a, .fin b => .fin (a - b)

/-- JavaScript multiplication `a * b` on numbers. -/
def JsNum.mul : JsNum → JsNum → JsNum
  | .nan, _ => .nan
  | _, .nan => .nan
  | .fin a, .fin b => .fin (a * b)
  | .posInf, .posInf => .posInf
  | .posInf, .negInf => .negInf
  | .negInf, .posInf => .negInf
  | .negInf, .negInf => .posInf
  | .posInf, .fin b => if 0 < b then .posInf else if b < 0 then .negInf else .nan
  | .fin a, .posInf => if 0 < a then .posInf else if a < 0 then .negInf else .nan
  | .negInf, .fin b => if 0 < b then .negInf else if b < 0 then .posInf else .nan
  | .fin a, .negInf => if 0 < a then .negInf else if a < 0 then .posInf else .nan

/-- JavaScript division `a / b` on numbers.  A nonzero finite value divided
by zero yields a signed infinity; `0 / 0` yields `NaN`. -/
def JsNum.div : JsNum → JsNum → JsNum
  | .nan, _ => .nan
  | _, .nan => .nan
  | .posInf, .posInf => .nan
  | .posInf, .negInf => .nan
  | .negInf, .posInf => .nan
  | .negInf, .negInf => .nan
  | .posInf, .fin b => if 0 ≤ b then .posInf else .negInf
  | .negInf, .fin b => if 0 ≤ b then .negInf else .posInf
  | .fin _, .posInf => .fin 0
  | .fin _, .negInf => .fin 0
  | .fin a, .fin b =>
      if b = 0 then (if 0 < a then .posInf else if a < 0 then .negInf else .nan)
      else .fin (a / b)

/-- Whether a JavaScript number is finite. -/
def JsNum.isFinite : JsNum → Bool
  | .fin _ => true
  | _ => false

/-- Digit characters folded into a natural number. -/
def natOfDigits (cs : List Char) : ℕ :=
  cs.foldl (fun a c => a * 10 + (c.toNat - 48)) 0

/-- Nonempty all-digit character list parsed to a natural number. -/
def parseDigits (cs : List Char) : Option ℕ :=
  if cs = [] then none
  else if cs.all (fun c => c.isDigit) then some (natOfDigits cs)
  else none

/-- Mantissa of a decimal literal: `digits`, `digits.digits`, `digits.`, or `.digits`. -/
def parseMant (cs : List Char) : Option ℚ :=
  match cs.span (fun c => c.isDigit) with
  | (ip, []) => if ip = [] then none else some ((natOfDigits ip : ℚ))
  | (ip, c :: fp) =>
    if c = '.' then
      if fp.all (fun d => d.isDigit) ∧ (ip ≠ [] ∨ fp ≠ []) then
        some ((natOfDigits ip : ℚ) + (natOfDigits fp : ℚ) / ((10 : ℚ) ^ fp.length))
      else none
    else none

/-- Exponent part of a decimal literal: optional sign, then digits. -/
def parseExp (cs : List Char) : Option ℤ :=
  match cs with
  | '+' :: r => (parseDigits r).map (fun n => (n : ℤ))
  | '-' :: r => (parseDigits r).map (fun n => -(n : ℤ))
  | r => (parseDigits r).map (fun n => (n : ℤ))

/-- Split a literal at the first `e`/`E` into mantissa and optional exponent. -/
def splitOnExp (cs : List Char) : List Char × Option (List Char) :=
  match cs.span (fun c => !(c == 'e' || c == 'E')) with
  | (m, []) => (m, none)
  | (m, _ :: e) => (m, some e)

/-- Unsigned decimal literal with optional exponent, as an exact rational. -/
def parseDecLit (cs : List Char) : Option ℚ :=
  match splitOnExp cs with
  | (m, none) => parseMant m
  | (m, some e) =>
    match parseMant m, parseExp e with
    | some q, some ex => some (q * (10 : ℚ) ^ ex)
    | _, _ => none

/-- Body of a numeric string after the optional sign has been stripped. -/
def strBody (sgn : ℚ) (body : List Char) : JsNum :=
  if body = ("Infinity".toList) then (if sgn = 1 then .posInf else .negInf)
  else
    match parseDecLit body with
    | some q => .fin (sgn * q)
    | none => .nan

/-- JavaScript `ToNumber` on strings, restricted to the decimal / `Infinity`
grammar (the hexadecimal, octal and binary prefixes are not modelled; no
string in this development exercises them): trimmed empty string is `0`,
otherwise parse an optionally signed decimal literal, else `NaN`. -/
def strToNumber (s : String) : JsNum :=
  let t := s.trim
  if t = "" then .fin 0
  else
    match t.toList with
    | '+' :: r => strBody 1 r
    | '-' :: r => strBody (-1) r
    | r => strBody 1 r

/-- A JavaScript primitive value as it can appear in the price cache. -/
inductive JsVal where
  | num (n : JsNum)
  | str (s : String)
  | nullV
  | undefV
deriving DecidableEq, Repr

/-- JavaScript `ToNumber` on the primitive values above. -/
def jsToNumber : JsVal → JsNum
  | .num n => n
  | .str s => strToNumber s
  | .nullV => .fin 0
  | .undefV => .nan

/-- An entry of `priceCache`: either a primitive value (the market-indices
pull stores `idx.current`, a bare number) or a quote record with a
`current` price and a `change_pct` (the shape handled by the
`typeof p === 'object'` branches of the consumers). -/
inductive CacheEntry where
  | prim (v : JsVal)
  | quoteObj (current : JsNum) (change_pct : JsNum)
deriving DecidableEq, Repr

/-- JavaScript truthiness of a cache entry, as tested by
`if (priceCache[p.symbol])` in `refreshPositionPrices` and by the ternary
in `updateTradeCostPreview`: `0`, `NaN`, the empty string, `null` and
`undefined` are falsy; every object is truthy. -/
def cacheTruthy : CacheEntry → Bool
  | .prim (.num (.fin q)) => if q = 0 then false else true
  | .prim (.num .nan) => false
  | .prim (.num _) => true
  | .prim (.str s) => if s = "" then false else true
  | .prim .nullV => false
  | .prim .undefV => false
  | .quoteObj _ _ => true

/-- Price extraction `typeof p === 'object' ? p.current : p`, as evaluated
on an entry already known to be truthy (so the `null` primitive, whose
`typeof` is `'object'` and whose property access would throw, cannot
reach this point in the guarded consumers). -/
def extractPrice : CacheEntry → JsVal
  | .quoteObj cur _ => .num cur
  | .prim v => v

/-- The same extraction as performed by `updateTicker`, which iterates over
every cache key without a truthiness guard: accessing `.current` on a
`null` entry would throw, modelled as `none`. -/
def tickerPrice : CacheEntry → Option JsVal
  | .quoteObj cur _ => some (.num cur)
  | .prim .nullV => none
  | .prim v => some v

/-- The `priceCache` object: a finite mapping from symbol to entry,
modelled as a function into `Option`. -/
abbrev Cache := String → Option CacheEntry

/-- The initial cache `{}`. -/
def emptyCache : Cache := fun _ => none

/-- `Object.assign(priceCache, msg.prices)`: per-symbol overwrite, symbols
absent from the update are untouched. -/
def Cache.merge (c u : Cache) : Cache :=
  fun sym =>
    match u sym with
    | some v => some v
    | none => c sym

/-- A one-symbol update object. -/
def singleCache (sym : String) (e : CacheEntry) : Cache :=
  fun s => if s = sym then some e else none

/-- A position row of the portfolio snapshot, with the fields read and
written by `refreshPositionPrices` and rendered by `updatePortfolioUI`.
`current_price` is stored as a raw JavaScript value because the source
assigns the extracted cache value to it unconverted. -/
structure Position where
  symbol : String
  quantity : ℚ
  avg_cost : ℚ
  current_price : JsVal
  market_value : JsNum
  unrealized_pnl : JsNum
  unrealized_pnl_pct : JsNum
  weight_pct : ℚ
deriving DecidableEq, Repr

/-- The `portfolioData` snapshot returned by `GET /api/portfolio`. -/
structure PortfolioSnapshot where
  cash : ℚ
  total_equity : ℚ
  total_return : ℚ
  total_return_pct : ℚ
  total_market_value : ℚ
  unrealized_pnl : ℚ
  provider : String
  positions : List Position
deriving DecidableEq, Repr

/-- The body of the `forEach` in `refreshPositionPrices`, as a pure
function of one position: if the cache entry for `p.symbol` is truthy,
extract the price and recompute `current_price`, `unrealized_pnl`,
`unrealized_pnl_pct` and `market_value`; otherwise leave the position
untouched. -/
def projectPosition (c : Cache) (p : Position) : Position :=
  match c p.symbol with
  | none => p
  | some e =>
    if cacheTruthy e then
      let priceV := extractPrice e
      let priceN := jsToNumber priceV
      { p with
        current_price := priceV
        unrealized_pnl := (priceN.sub (.fin p.avg_cost)).mul (.fin p.quantity)
        unrealized_pnl_pct :=
          ((priceN.sub (.fin p.avg_cost)).div (.fin p.avg_cost)).mul (.fin 100)
        market_value := priceN.mul (.fin p.quantity) }
    else p

/-- `refreshPositionPrices` over the whole snapshot, as a pure function:
only the positions list is touched, every other snapshot field is
carried over. -/
def project (s : PortfolioSnapshot) (c : Cache) : PortfolioSnapshot :=
  { s with positions := s.positions.map (projectPosition c) }

/-- `updateTradeCostPreview`'s live price:
`priceCache[sym] ? (typeof ... ? .current : value) : null`; a falsy
entry (or an absent one) yields `null`, modelled as `none`. -/
def livePrice (c : Cache) (sym : String) : Option JsVal :=
  match c sym with
  | some e => if cacheTruthy e then some (extractPrice e) else none
  | none => none

/-- The WebSocket's coarse readiness as the client sees it. -/
inductive ConnState where
  | disconnected
  | connecting
  | connOpen
deriving DecidableEq, Repr

/-- The mutable globals of `app.js` relevant to the session, the feed and
the reconciliation interval, together with the browser timer queue.
`now` is wall-clock milliseconds; `reconnectTimers` holds the due times
of pending `setTimeout(connectWebSocket, 5000)` callbacks;
`heartbeatIntervals` counts the live heartbeat `setInterval` timers
started by `ws.onopen` (the source never stores their ids, so none is
ever cleared); `inFlightPulls` counts `loadPortfolio` requests issued
but not yet resolved. -/
structure AppState where
  now : ℕ
  authToken : String
  currentUser : Option String
  storedToken : Option String
  overlayVisible : Bool
  connState : ConnState
  statusConnected : Bool
  reconnectTimers : List ℕ
  heartbeatIntervals : ℕ
  inFlightPulls : ℕ
  portfolioData : Option PortfolioSnapshot
deriving DecidableEq, Repr

/-- `handleLogout`: clear the in-memory token and user, remove the stored
token, show the auth overlay, and close the WebSocket if there is one
(the transport's own close event is delivered separately by the
browser). -/
def handleLogout (s : AppState) : AppState :=
  { s with
    authToken := ""
    currentUser := none
    storedToken := none
    overlayVisible := true
    connState := .disconnected }

/-- `connectWebSocket`: construct a new WebSocket (readiness
`CONNECTING`) and install the handlers. -/
def connectWebSocket (s : AppState) : AppState :=
  { s with connState := .connecting }

/-- `handleLogin` success path: store the received access token in memory
and in durable local storage. -/
def loginSuccess (s : AppState) (tok : String) : AppState :=
  { s with authToken := tok, storedToken := some tok }

/-- External events delivered to the client: a `connectWebSocket` call,
the transport's `open` / `close` / `error` events, a `handleLogout`
call, a tick of the 60-second reconciliation interval, the resolution
of a pending portfolio pull (success carries the decoded snapshot),
time passing, the browser firing a due reconnect timeout, and a
successful login. -/
inductive FeedEvent where
  | connect
  | wsOpenEvt
  | wsCloseEvt
  | wsErrorEvt
  | logout
  | reconTick
  | pullComplete (snap : PortfolioSnapshot)
  | pullFail
  | advance (d : ℕ)
  | fireReconnect
  | loginSuccess (tok : String)

/-- One step of the client, mirroring the handlers in `app.js`:
`ws.onopen` lights the status dot and starts a fresh heartbeat interval;
`ws.onclose` marks the UI disconnected and schedules exactly one
`setTimeout(connectWebSocket, 5000)` — it clears nothing and is run for
deliberate closes too; `ws.onerror` merely calls `ws.close()`, whose
close event arrives as a separate `wsCloseEvt`; the reconciliation
interval body is `if (authToken) { loadPortfolio(); ... }`, issuing a
pull unconditionally when a token is present; a resolved pull stores the
response wholesale into `portfolioData`; a due reconnect timeout runs
`connectWebSocket`. -/
def step (s : AppState) : FeedEvent → AppState
  | .connect => connectWebSocket s
  | .wsOpenEvt =>
      { s with
        connState := .connOpen
        statusConnected := true
        heartbeatIntervals := s.heartbeatIntervals + 1 }
  | .wsCloseEvt =>
      { s with
        connState := .disconnected
        statusConnected := false
        reconnectTimers := s.reconnectTimers ++ [s.now + 5000] }
  | .wsErrorEvt => s
  | .logout => handleLogout s
  | .reconTick =>
      if s.authToken ≠ "" then { s with inFlightPulls := s.inFlightPulls + 1 } else s
  | .pullComplete snap =>
      { s with inFlightPulls := s.inFlightPulls - 1, portfolioData := some snap }
  | .pullFail => { s with inFlightPulls := s.inFlightPulls - 1 }
  | .advance d => { s with now := s.now + d }
  | .fireReconnect =>
      match s.reconnectTimers with
      | [] => s
      | t :: rest =>
          if t ≤ s.now then connectWebSocket { s with reconnectTimers := rest } else s
  | .loginSuccess tok => loginSuccess s tok

/-- A sequence of events folded through `step`. -/
def run (s : AppState) (es : List FeedEvent) : AppState :=
  es.foldl step s

/-- A logged-in, idle client at time zero, used as the starting point of
the concrete executions below. -/
def initState : AppState :=
  { now := 0
    authToken := "tok"
    currentUser := some "alice"
    storedToken := some "tok"
    overlayVisible := false
    connState := .disconnected
    statusConnected := false
    reconnectTimers := []
    heartbeatIntervals := 0
    inFlightPulls := 0
    portfolioData := none }

/-- A request's header map, keyed by header name. -/
abbrev Headers := String → Option String

/-- `options.headers[k] = v`. -/
def setHeader (h : Headers) (k v : String) : Headers :=
  fun k2 => if k2 = k then some v else h k2

/-- JavaScript falsiness of a header slot: absent or the empty string. -/
def headerFalsy (h : Headers) (k : String) : Bool :=
  match h k with
  | none => true
  | some v => if v = "" then true else false

/-- The `options` argument of `authFetch`: an optional `method` and a
header map. -/
structure Request where
  method : Option String
  headers : Headers

/-- The header mutation performed by `authFetch` before sending: attach
`Authorization: Bearer <token>` when a token is present, then default
`Content-Type` to `application/json` for truthy non-`GET` methods that
carry no truthy `Content-Type`. -/
def withAuthHeaders (s : AppState) (req : Request) : Request :=
  let h1 :=
    if s.authToken ≠ "" then
      setHeader req.headers "Authorization" ("Bearer " ++ s.authToken)
    else req.headers
  let h2 :=
    match req.method with
    | some m =>
        if m ≠ "" ∧ m ≠ "GET" ∧ headerFalsy h1 "Content-Type" then
          setHeader h1 "Content-Type" "application/json"
        else h1
    | none => h1
  { req with headers := h2 }

/-- How an `authFetch` call ends: the response is returned, or the thrown
session-expired error propagates to the caller. -/
inductive FetchResult where
  | ok (status : ℕ)
  | sessionExpired
deriving DecidableEq, Repr

/-- Everything observable about one `authFetch` call: the request as sent,
the client state afterwards, and the call's outcome. -/
structure FetchOutcome where
  sent : Request
  post : AppState
  result : FetchResult

/-- `authFetch(url, options)` evaluated against a response with the given
status: build the outgoing headers, and on a 401 run `handleLogout()`
and throw (`SessionExpired`); any other status is handed back to the
caller unchanged. -/
def authFetch (s : AppState) (req : Request) (status : ℕ) : FetchOutcome :=
  let sent := withAuthHeaders s req
  if status = 401 then ⟨sent, handleLogout s, .sessionExpired⟩
  else ⟨sent, s, .ok status⟩

/-- A held position: 10 shares of AAPL at an average cost of 150, last
marked at 150. -/
def posAAPL : Position :=
  { symbol := "AAPL"
    quantity := 10
    avg_cost := 150
    current_price := .num (.fin 150)
    market_value := .fin 1500
    unrealized_pnl := .fin 0
    unrealized_pnl_pct := .fin 0
    weight_pct := 100 }

/-- The same position with a zero average cost. -/
def posZeroCost : Position :=
  { posAAPL with avg_cost := 0 }

/-- The cache after `merge({AAPL: 160})` into the empty cache: the bare
number 160 under `"AAPL"`. -/
def cache160 : Cache :=
  Cache.merge emptyCache (singleCache "AAPL" (.prim (.num (.fin 160))))

/-- A cache holding the bare number 0 under `"AAPL"`. -/
def cacheZeroNum : Cache :=
  singleCache "AAPL" (.prim (.num (.fin 0)))

/-- A cache holding a quote record with `current` 0 under `"AAPL"`. -/
def cacheZeroObj : Cache :=
  singleCache "AAPL" (.quoteObj (.fin 0) (.fin 0))

/-- A cache holding a quote record with `current` 160 under `"AAPL"`. -/
def cacheObj160 : Cache :=
  singleCache "AAPL" (.quoteObj (.fin 160) (.fin 1))

/-- A portfolio snapshot holding cash and the single AAPL position. -/
def snapAAPL : PortfolioSnapshot :=
  { cash := 1000
    total_equity := 2500
    total_return := 100
    total_return_pct := 4
    total_market_value := 1500
    unrealized_pnl := 0
    provider := "Local"
    positions := [posAAPL] }

/-- Three successive `price_update` payloads: two touch `"AAPL"` (number
then record), the third touches only `"MSFT"`. -/
def updates3 : List Cache :=
  [singleCache "AAPL" (.prim (.num (.fin 150))),
   singleCache "AAPL" (.quoteObj (.fin 160) (.fin 1)),
   singleCache "MSFT" (.prim (.num (.fin 420)))]

/-- A bare request with no method and no headers. -/
def req0 : Request :=
  { method := none, headers := fun _ => none }

/-- The event trace of a logout while the feed is up: connect, the open
handshake, `handleLogout()`, and the close event the browser delivers
for the `ws.close()` issued by the logout. -/
def logoutTrace : List FeedEvent :=
  [.connect, .wsOpenEvt, .logout, .wsCloseEvt]

/-- A client at time 1000 with one reconnect timeout pending for
time 7000. -/
def stateT : AppState :=
  { initState with now := 1000, reconnectTimers := [7000] }

/-! ## Basic facts about the projection -/

/-- When the cache entry for the position's symbol is present and truthy,
`refreshPositionPrices` rewrites exactly the four derived fields from the
extracted price. -/
theorem projectPosition_hit (c : Cache) (p : Position) (e : CacheEntry)
    (h1 : c p.symbol = some e) (h2 : cacheTruthy e = true) :
    projectPosition c p =
      { p with
        current_price := extractPrice e
        unrealized_pnl :=
          ((jsToNumber (extractPrice e)).sub (.fin p.avg_cost)).mul (.fin p.quantity)
        unrealized_pnl_pct :=
          (((jsToNumber (extractPrice e)).sub (.fin p.avg_cost)).div
            (.fin p.avg_cost)).mul (.fin 100)
        market_value := (jsToNumber (extractPrice e)).mul (.fin p.quantity) } := by
  simp only [projectPosition, h1, h2, if_true]

/-- A symbol absent from the cache leaves its position untouched. -/
theorem projectPosition_miss (c : Cache) (p : Position) (h : c p.symbol = none) :
    projectPosition c p = p := by
  simp only [projectPosition, h]

/-- A falsy cache entry leaves its position untouched. -/
theorem projectPosition_falsy (c : Cache) (p : Position) (e : CacheEntry)
    (h1 : c p.symbol = some e) (h2 : cacheTruthy e = false) :
    projectPosition c p = p := by
  simp only [projectPosition, h1, h2, Bool.false_eq_true, if_false]

/-- The projection never writes `symbol`, `quantity`, `avg_cost` or
`weight_pct`. -/
theorem projPos_preserves (c : Cache) (p : Position) :
    (projectPosition c p).symbol = p.symbol ∧
    (projectPosition c p).quantity = p.quantity ∧
    (projectPosition c p).avg_cost = p.avg_cost ∧
    (projectPosition c p).weight_pct = p.weight_pct := by
  unfold projectPosition
  cases c p.symbol
  · exact ⟨rfl, rfl, rfl, rfl⟩
  · dsimp only
    split
    · exact ⟨rfl, rfl, rfl, rfl⟩
    · exact ⟨rfl, rfl, rfl, rfl⟩

/-- The percentage computation of `refreshPositionPrices` with a zero
`avg_cost` divides by zero and can only yield `±Infinity` or `NaN`,
whatever JavaScript number the extracted price coerces to. -/
theorem div_by_zero_pct_nonfinite (x : JsNum) :
    (((x.sub (.fin 0)).div (.fin 0)).mul (.fin 100)).isFinite = false := by
  rcases x with q | _ | _ | _
  · rcases lt_trichotomy 0 q with h | h | h
    · norm_num [JsNum.sub, JsNum.div, JsNum.mul, JsNum.isFinite, h]
    · subst h
      norm_num [JsNum.sub, JsNum.div, JsNum.mul, JsNum.isFinite]
    · norm_num [JsNum.sub, JsNum.div, JsNum.mul, JsNum.isFinite, h, lt_asymm h]
  · norm_num [JsNum.sub, JsNum.div, JsNum.mul, JsNum.isFinite]
  · norm_num [JsNum.sub, JsNum.div, JsNum.mul, JsNum.isFinite]
  · norm_num [JsNum.sub, JsNum.div, JsNum.mul, JsNum.isFinite]

/-- Claim C1 (counterexample): with `avgCost = 0` and a cached quote of
160 for the symbol, the projection does not define `unrealizedPnlPct`
as 0 — it divides by `avgCost` and produces `+Infinity`. -/
theorem avgCost_zero_pct_infinite_cex :
    (projectPosition cache160 posZeroCost).unrealized_pnl_pct = JsNum.posInf ∧
    (projectPosition cache160 posZeroCost).unrealized_pnl_pct ≠ JsNum.fin 0 := by
  have hpct : (projectPosition cache160 posZeroCost).unrealized_pnl_pct = JsNum.posInf := by
    rw [projectPosition_hit cache160 posZeroCost (.prim (.num (.fin 160))) rfl (by decide)]
    show (((JsNum.fin 160).sub (.fin posZeroCost.avg_cost)).div
      (.fin posZeroCost.avg_cost)).mul (.fin 100) = JsNum.posInf
    norm_num [posZeroCost, posAAPL, JsNum.sub, JsNum.div, JsNum.mul]
  refine ⟨hpct, ?_⟩
  rw [hpct]
  intro h
  exact JsNum.noConfusion h

/-- Claim C1 (amended): for every position whose symbol has a truthy
cached quote and whose `avgCost` equals 0, the projection divides by
`avgCost`, so `unrealizedPnlPct` comes out non-finite (`±Infinity` or
`NaN`), never the finite value 0. -/
theorem avgCost_zero_pct_nonfinite (c : Cache) (p : Position) (e : CacheEntry)
    (h1 : c p.symbol = some e) (h2 : cacheTruthy e = true) (h0 : p.avg_cost = 0) :
    ((projectPosition c p).unrealized_pnl_pct).isFinite = false := by
  rw [projectPosition_hit c p e h1 h2]
  dsimp only
  rw [h0]
  exact div_by_zero_pct_nonfinite _

/-- Claim C1 (witness): the amended statement evaluated on the concrete
zero-cost position against the cached price 160. -/
theorem avgCost_zero_pct_nonfinite_witness :
    cacheTruthy (CacheEntry.prim (.num (.fin 160))) = true ∧
    ((projectPosition cache160 posZeroCost).unrealized_pnl_pct).isFinite = false :=
  ⟨by decide, avgCost_zero_pct_nonfinite cache160 posZeroCost _ rfl (by decide) rfl⟩

/-- Claim C6: a position whose symbol carries a truthy cached entry whose
extracted price is the finite number `q` has its derived fields
recomputed as `currentPrice = q`, `unrealizedPnl = (q − avgCost) ×
quantity`, `marketValue = q × quantity`, and (for a nonzero `avgCost`)
`unrealizedPnlPct = (q − avgCost) / avgCost × 100`. -/
theorem projection_recomputes_formulas (c : Cache) (p : Position) (e : CacheEntry) (q : ℚ)
    (h1 : c p.symbol = some e) (h2 : cacheTruthy e = true)
    (hq : jsToNumber (extractPrice e) = .fin q) (havg : p.avg_cost ≠ 0) :
    (projectPosition c p).current_price = extractPrice e ∧
    (projectPosition c p).unrealized_pnl = .fin ((q - p.avg_cost) * p.quantity) ∧
    (projectPosition c p).market_value = .fin (q * p.quantity) ∧
    (projectPosition c p).unrealized_pnl_pct =
      .fin ((q - p.avg_cost) / p.avg_cost * 100) := by
  rw [projectPosition_hit c p e h1 h2]
  refine ⟨rfl, ?_, ?_, ?_⟩ <;> dsimp only <;> rw [hq] <;>
    simp [JsNum.sub, JsNum.mul, JsNum.div, havg]

/-- Claim C6 (witness): the spec scenario — `Position{AAPL, 10, 150}` and
`merge({AAPL: 160})` yield `unrealizedPnl = 100`, `marketValue = 1600`,
`unrealizedPnlPct = 20/3 = 6.666…`. -/
theorem projection_recomputes_formulas_witness :
    (projectPosition cache160 posAAPL).unrealized_pnl = JsNum.fin 100 ∧
    (projectPosition cache160 posAAPL).market_value = JsNum.fin 1600 ∧
    (projectPosition cache160 posAAPL).unrealized_pnl_pct = JsNum.fin (20 / 3) := by
  have h := projection_recomputes_formulas cache160 posAAPL (.prim (.num (.fin 160))) 160
    rfl (by decide) rfl (by norm_num [posAAPL])
  refine ⟨?_, ?_, ?_⟩
  · rw [h.2.1]; norm_num [posAAPL]
  · rw [h.2.2.1]; norm_num [posAAPL]
  · rw [h.2.2.2]; norm_num [posAAPL]

/-- Claim C7: the projection changes neither `cash` nor any aggregate
total of the snapshot, it only maps `projectPosition` over the position
list, per position it never writes `symbol`, `quantity`, `avg_cost` or
`weight_pct`, and a position whose symbol is absent from the cache is
returned entirely unchanged. -/
theorem projection_frame (s : PortfolioSnapshot) (c : Cache) (p : Position) :
    (project s c).cash = s.cash ∧
    (project s c).total_equity = s.total_equity ∧
    (project s c).total_return = s.total_return ∧
    (project s c).total_return_pct = s.total_return_pct ∧
    (project s c).total_market_value = s.total_market_value ∧
    (project s c).unrealized_pnl = s.unrealized_pnl ∧
    (project s c).positions = s.positions.map (projectPosition c) ∧
    (projectPosition c p).symbol = p.symbol ∧
    (projectPosition c p).quantity = p.quantity ∧
    (projectPosition c p).avg_cost = p.avg_cost ∧
    (projectPosition c p).weight_pct = p.weight_pct ∧
    (c p.symbol = none → projectPosition c p = p) := by
  have hp := projPos_preserves c p
  exact ⟨rfl, rfl, rfl, rfl, rfl, rfl, rfl, hp.1, hp.2.1, hp.2.2.1, hp.2.2.2,
    fun h => projectPosition_miss c p h⟩

/-- Claim C7 (witness): the frame facts evaluated on the concrete snapshot
against the empty cache, where every symbol misses. -/
theorem projection_frame_witness :
    (project snapAAPL emptyCache).cash = snapAAPL.cash ∧
    projectPosition emptyCache posAAPL = posAAPL := by
  have h := projection_frame snapAAPL emptyCache posAAPL
  exact ⟨h.1, h.2.2.2.2.2.2.2.2.2.2.2 rfl⟩

/-- Applying the per-position projection twice against the same cache is
the same as applying it once: the recomputed fields depend only on the
cache entry and on the untouched `symbol`, `avg_cost` and `quantity`. -/
theorem projectPosition_idem (c : Cache) (p : Position) :
    projectPosition c (projectPosition c p) = projectPosition c p := by
  cases h : c p.symbol with
  | none =>
      rw [projectPosition_miss c p h]
      rw [projectPosition_miss c p h]
  | some e =>
      by_cases ht : cacheTruthy e = true
      · have hsym := (projPos_preserves c p).1
        have h2 : c (projectPosition c p).symbol = some e := by rw [hsym]; exact h
        rw [projectPosition_hit c (projectPosition c p) e h2 ht,
          projectPosition_hit c p e h ht]
      · have ht2 : cacheTruthy e = false := by
          revert ht; cases cacheTruthy e <;> simp
        rw [projectPosition_falsy c p e h ht2]
        exact projectPosition_falsy c p e h ht2

/-- Mapping the projection twice over a position list equals mapping it
once. -/
theorem map_projPos_idem (c : Cache) (l : List Position) :
    (l.map (projectPosition c)).map (projectPosition c) = l.map (projectPosition c) := by
  induction l with
  | nil => rfl
  | cons hd tl ih => simp only [List.map_cons, projectPosition_idem, ih]

/-- Claim C8: `project` is a pure function of its snapshot and cache (it
is a Lean function of exactly those two arguments) and is idempotent. -/
theorem project_idempotent (s : PortfolioSnapshot) (c : Cache) :
    project (project s c) c = project s c := by
  unfold project
  dsimp only
  rw [map_projPos_idem]

/-- Claim C9: a cache entry that is falsy — the number 0, the empty
string, `null` or `undefined` — is treated by the projection exactly as
an absent symbol: the position is returned unchanged, so a pushed bare
quote of price 0 never overwrites a position's marks. -/
theorem falsy_entry_skipped :
    (∀ (c : Cache) (p : Position) (e : CacheEntry),
        c p.symbol = some e → cacheTruthy e = false → projectPosition c p = p) ∧
    cacheTruthy (.prim (.num (.fin 0))) = false ∧
    cacheTruthy (.prim (.str "")) = false ∧
    cacheTruthy (.prim .nullV) = false ∧
    cacheTruthy (.prim .undefV) = false :=
  ⟨fun c p e h1 h2 => projectPosition_falsy c p e h1 h2, by decide, by decide, rfl, rfl⟩

/-- Claim C9 (witness): a pushed bare quote of 0 for AAPL leaves the AAPL
position unchanged. -/
theorem falsy_entry_skipped_witness :
    projectPosition cacheZeroNum posAAPL = posAAPL :=
  falsy_entry_skipped.1 cacheZeroNum posAAPL (.prim (.num (.fin 0))) rfl (by decide)

/-- Claim C10 (counterexample): the two cache shapes carrying the same
price 0 do not produce the same downstream computation — the bare number
0 is falsy and skipped, while the record `{current: 0}` is truthy and
overwrites the marks with price 0. -/
theorem shape_zero_price_divergence_cex :
    projectPosition cacheZeroNum posAAPL = posAAPL ∧
    (projectPosition cacheZeroObj posAAPL).current_price = JsVal.num (.fin 0) ∧
    projectPosition cacheZeroNum posAAPL ≠ projectPosition cacheZeroObj posAAPL := by
  have hA : projectPosition cacheZeroNum posAAPL = posAAPL :=
    projectPosition_falsy _ _ (.prim (.num (.fin 0))) rfl (by decide)
  have hB : (projectPosition cacheZeroObj posAAPL).current_price = JsVal.num (.fin 0) := by
    rw [projectPosition_hit cacheZeroObj posAAPL (.quoteObj (.fin 0) (.fin 0)) rfl rfl]
    rfl
  refine ⟨hA, hB, ?_⟩
  intro hEq
  rw [hA] at hEq
  have hc := congrArg Position.current_price hEq
  rw [hB] at hc
  norm_num [posAAPL] at hc

/-- Claim C10 (amended): for the same *nonzero* finite price `q`, the bare
number entry and the quote-record entry produce identical results in
every consumer — the projection computes the same projected position,
the ticker extracts the same price, and the trade-cost preview sees the
same live price; at price 0 the two shapes diverge because only the bare
number is falsy. -/
theorem shape_agnostic_extraction (p : Position) (q cp : ℚ) (c1 c2 : Cache)
    (h1 : c1 p.symbol = some (.prim (.num (.fin q))))
    (h2 : c2 p.symbol = some (.quoteObj (.fin q) (.fin cp)))
    (hq : q ≠ 0) :
    projectPosition c1 p = projectPosition c2 p ∧
    tickerPrice (.prim (.num (.fin q))) = some (.num (.fin q)) ∧
    tickerPrice (.quoteObj (.fin q) (.fin cp)) = some (.num (.fin q)) ∧
    livePrice c1 p.symbol = some (.num (.fin q)) ∧
    livePrice c2 p.symbol = some (.num (.fin q)) := by
  have ht1 : cacheTruthy (.prim (.num (.fin q))) = true := by
    simp [cacheTruthy, hq]
  have ht2 : cacheTruthy (CacheEntry.quoteObj (.fin q) (.fin cp)) = true := rfl
  refine ⟨?_, rfl, rfl, ?_, ?_⟩
  · rw [projectPosition_hit c1 p _ h1 ht1, projectPosition_hit c2 p _ h2 ht2]
    rfl
  · simp [livePrice, h1, ht1, extractPrice]
  · simp [livePrice, h2, cacheTruthy, extractPrice]

/-- Claim C10 (witness): the amended agreement evaluated at price 160 in
both shapes. -/
theorem shape_agnostic_extraction_witness :
    projectPosition cache160 posAAPL = projectPosition cacheObj160 posAAPL :=
  (shape_agnostic_extraction posAAPL 160 1 cache160 cacheObj160 rfl rfl
    (by norm_num)).1

/-! ## The price cache -/

/-- `findSome?` over an appended list looks in the first part first. -/
theorem findSome?_append_eq {α β : Type} (f : α → Option β) (l1 l2 : List α) :
    (l1 ++ l2).findSome? f =
      match l1.findSome? f with
      | some v => some v
      | none => l2.findSome? f := by
  induction l1 with
  | nil => simp
  | cons a l ih =>
      rw [List.cons_append, List.findSome?_cons, List.findSome?_cons]
      cases f a
      · exact ih
      · rfl

/-- A left fold of `Cache.merge` reads, per symbol, the latest update
that carries the symbol, falling back to the start cache. -/
theorem foldl_merge_get (us : List Cache) (c : Cache) (sym : String) :
    (us.foldl Cache.merge c) sym =
      match us.reverse.findSome? (fun u => u sym) with
      | some v => some v
      | none => c sym := by
  induction us generalizing c with
  | nil => simp
  | cons u rest ih =>
      rw [List.foldl_cons, ih (Cache.merge c u), List.reverse_cons,
        findSome?_append_eq]
      cases hfs : rest.reverse.findSome? (fun u => u sym) with
      | some v => rfl
      | none =>
          rw [List.findSome?_cons]
          unfold Cache.merge
          cases u sym
          · rfl
          · rfl

/-- Claim C5: after any sequence of `merge` calls into the initially
empty cache, `get(symbol)` returns exactly the quote carried by the last
merge whose update included the symbol (and is absent when none did);
and a single `merge` leaves every symbol its update does not carry
unchanged. -/
theorem cache_last_write_wins (us : List Cache) (sym : String) :
    (us.foldl Cache.merge emptyCache) sym = us.reverse.findSome? (fun u => u sym) ∧
    (∀ c u : Cache, u sym = none → Cache.merge c u sym = c sym) := by
  constructor
  · rw [foldl_merge_get]
    cases h : us.reverse.findSome? (fun u => u sym)
    · rfl
    · rfl
  · intro c u h
    unfold Cache.merge
    rw [h]

/-- Claim C5 (witness): three concrete pushes — AAPL at 150, AAPL as a
record at 160, then MSFT at 420 — leave AAPL at the second value, and a
merge of an empty update changes nothing. -/
theorem cache_last_write_wins_witness :
    (updates3.foldl Cache.merge emptyCache) "AAPL" =
      some (CacheEntry.quoteObj (.fin 160) (.fin 1)) ∧
    Cache.merge cache160 emptyCache "AAPL" = cache160 "AAPL" := by
  have h := cache_last_write_wins updates3 "AAPL"
  refine ⟨?_, h.2 cache160 emptyCache rfl⟩
  rw [h.1]
  rfl

/-! ## Transport lifecycle, session expiry, reconciliation -/

/-- Claim C2 (counterexample): after an intentional teardown — `connect`,
the open handshake, `handleLogout()` (which calls `ws.close()`), then
the delivered close event — a reconnect is still scheduled for 5000 ms
and the heartbeat interval is still alive; once the 5 seconds elapse the
reconnect fires and the client is connecting again, so `disconnect()`
does not suppress the reconnect and the heartbeat timer is not
cleared. -/
theorem reconnect_after_logout_cex :
    (run initState logoutTrace).reconnectTimers = [5000] ∧
    (run initState logoutTrace).heartbeatIntervals = 1 ∧
    (run initState logoutTrace).authToken = "" ∧
    (run initState (logoutTrace ++ [.advance 5000, .fireReconnect])).connState =
      ConnState.connecting := by
  refine ⟨rfl, rfl, rfl, rfl⟩

/-- Claim C2 (amended): any transport close event marks the client
disconnected and schedules exactly one reconnect attempt due exactly
5000 ms later; the heartbeat interval count is not changed (the source
never clears it); a pending reconnect timer never fires before its due
time; and the close event behaves identically after a logout, so an
explicit `disconnect()` does not suppress the scheduled reconnect. -/
theorem close_schedules_one_reconnect (s : AppState) :
    (step s .wsCloseEvt).reconnectTimers = s.reconnectTimers ++ [s.now + 5000] ∧
    (step s .wsCloseEvt).statusConnected = false ∧
    (step s .wsCloseEvt).connState = ConnState.disconnected ∧
    (step s .wsCloseEvt).heartbeatIntervals = s.heartbeatIntervals ∧
    (∀ t rest, s.reconnectTimers = t :: rest → s.now < t → step s .fireReconnect = s) ∧
    (step (step s .logout) .wsCloseEvt).reconnectTimers =
      s.reconnectTimers ++ [s.now + 5000] := by
  refine ⟨rfl, rfl, rfl, rfl, ?_, rfl⟩
  intro t rest h hlt
  show (match s.reconnectTimers with
    | [] => s
    | t :: rest => if t ≤ s.now then connectWebSocket { s with reconnectTimers := rest } else s) = s
  rw [h]
  exact if_neg (by omega)

/-- Claim C2 (witness): the amended facts evaluated on the concrete
client that has one reconnect pending for time 7000 at time 1000. -/
theorem close_schedules_one_reconnect_witness :
    (step stateT .wsCloseEvt).reconnectTimers = [7000, 6000] ∧
    step stateT .fireReconnect = stateT := by
  have h := close_schedules_one_reconnect stateT
  exact ⟨h.1, h.2.2.2.2.1 7000 [] rfl (by decide)⟩

/-- A truthy token is attached as a bearer header, surviving the
`Content-Type` defaulting. -/
theorem withAuthHeaders_auth (s : AppState) (req : Request) (htok : s.authToken ≠ "") :
    (withAuthHeaders s req).headers "Authorization" =
      some ("Bearer " ++ s.authToken) := by
  unfold withAuthHeaders
  rw [if_pos htok]
  cases req.method with
  | none => simp [setHeader]
  | some m =>
      dsimp only
      split
      · simp [setHeader]
      · simp [setHeader]

/-- With no token, no `Authorization` header is added. -/
theorem withAuthHeaders_none (s : AppState) (req : Request) (htok : s.authToken = "")
    (h : req.headers "Authorization" = none) :
    (withAuthHeaders s req).headers "Authorization" = none := by
  unfold withAuthHeaders
  rw [if_neg (by simp [htok])]
  cases req.method with
  | none => exact h
  | some m =>
      dsimp only
      split
      · simpa [setHeader] using h
      · exact h

/-- The request actually sent by `authFetch` is the one produced by the
header mutation, whatever the response status turns out to be. -/
theorem authFetch_sent (s : AppState) (req : Request) (status : ℕ) :
    (authFetch s req status).sent = withAuthHeaders s req := by
  unfold authFetch
  split
  · rfl
  · rfl

/-- Claim C3: every authorized call with a live credential attaches it as
a bearer header; a 401 answer makes the call fail as session-expired and
leaves the session absent — token cleared from memory and durable
storage, user cleared, feed closed — after which authorized calls attach
no credential until a successful login installs a new token, which is
then attached again. -/
theorem authFetch_attaches_and_expires (s : AppState) (req : Request) (status : ℕ)
    (htok : s.authToken ≠ "") :
    (authFetch s req status).sent.headers "Authorization" =
      some ("Bearer " ++ s.authToken) ∧
    (status = 401 →
      (authFetch s req status).result = FetchResult.sessionExpired ∧
      (authFetch s req status).post.authToken = "" ∧
      (authFetch s req status).post.storedToken = none ∧
      (authFetch s req status).post.currentUser = none ∧
      (authFetch s req status).post.connState = ConnState.disconnected ∧
      (∀ (req2 : Request) (st2 : ℕ), req2.headers "Authorization" = none →
        (authFetch (authFetch s req status).post req2 st2).sent.headers
          "Authorization" = none) ∧
      (∀ (tok : String) (req3 : Request) (st3 : ℕ), tok ≠ "" →
        (authFetch (loginSuccess (authFetch s req status).post tok) req3 st3).sent.headers
          "Authorization" = some ("Bearer " ++ tok))) := by
  constructor
  · rw [authFetch_sent]
    exact withAuthHeaders_auth s req htok
  · intro h401
    subst h401
    refine ⟨rfl, rfl, rfl, rfl, rfl, ?_, ?_⟩
    · intro req2 st2 h2
      rw [authFetch_sent]
      exact withAuthHeaders_none _ req2 rfl h2
    · intro tok req3 st3 htok3
      rw [authFetch_sent]
      exact withAuthHeaders_auth _ req3 htok3

/-- Claim C3 (witness): the logged-in client sends `Bearer tok`; a 401
expires the call, and the very next call attaches nothing. -/
theorem authFetch_attaches_and_expires_witness :
    (authFetch initState req0 401).sent.headers "Authorization" = some "Bearer tok" ∧
    (authFetch initState req0 401).result = FetchResult.sessionExpired ∧
    (authFetch initState req0 401).post.storedToken = none ∧
    (authFetch (authFetch initState req0 401).post req0 200).sent.headers
      "Authorization" = none := by
  have h := authFetch_attaches_and_expires initState req0 401 (by decide)
  have h401 := h.2 rfl
  exact ⟨h.1, h401.1, h401.2.2.1, h401.2.2.2.2.2.1 req0 200 rfl⟩

/-- Claim C4 (counterexample): two consecutive ticks of the 60-second
reconciliation interval while the first pull is still outstanding leave
two pulls in flight — the second tick is not skipped, violating
at-most-one-in-flight. -/
theorem recon_tick_overlap_cex :
    (run initState [.reconTick, .reconTick]).inFlightPulls = 2 ∧
    ¬ (run initState [.reconTick, .reconTick]).inFlightPulls ≤ 1 := by
  refine ⟨rfl, by decide⟩

/-- Claim C4 (amended): every tick of the reconciliation interval with a
live credential unconditionally issues a new pull, regardless of how
many are outstanding (there is no skip / in-flight guard), and any pull
that completes stores its snapshot wholesale. -/
theorem recon_tick_no_skip (s : AppState) (snap : PortfolioSnapshot)
    (h : s.authToken ≠ "") :
    (step s .reconTick).inFlightPulls = s.inFlightPulls + 1 ∧
    (step s (.pullComplete snap)).portfolioData = some snap := by
  constructor
  · show (if s.authToken ≠ "" then
      { s with inFlightPulls := s.inFlightPulls + 1 } else s).inFlightPulls =
      s.inFlightPulls + 1
    rw [if_pos h]
  · rfl

/-- Claim C4 (witness): the amended behavior on the concrete logged-in
client and the concrete snapshot. -/
theorem recon_tick_no_skip_witness :
    (step initState .reconTick).inFlightPulls = 1 ∧
    (step initState (.pullComplete snapAAPL)).portfolioData = some snapAAPL := by
  have h := recon_tick_no_skip initState snapAAPL (by decide)
  exact ⟨h.1, h.2⟩

end AlphaTrader
